import Mathlib

/-!
Verification of the stock-client library (src/index.js) against its
natural-language specification.  The JavaScript source is shallowly embedded:
pure computations become Lean functions, the external libraries (zlib's
`gunzip`, `JSON.parse`, the HTTP transport) become explicit oracle parameters
whose outcomes are delivered exactly where the source consumes them, and the
mutable `Data._payload` object becomes explicit state passing.
-/

namespace StockClient

/-- Model of a JavaScript `Error` value as it flows through the library:
`error` is a plain `Error`, `typeError` a `TypeError` (thrown by the
invalid-state branch of `Data.payload`), `syntaxError` a `SyntaxError`
(thrown by `JSON.parse`), `assertionError` the error thrown by `assert`,
and `badStatus` abstracts the `Bad status code: ...` errors built from a
non-200 response (capturing the status code and response body the message
embeds). -/
inductive JsErr where
  | error (msg : String)
  | typeError (msg : String)
  | syntaxError (msg : String)
  | assertionError (msg : String)
  | badStatus (code : Nat) (body : String)
deriving DecidableEq, Repr

mutual

/-- Model of a JSON value (`JSON.parse` result).  Numbers are modelled as
integers; the claims only involve integral numbers.  Arrays and objects
carry their elements through the mutually defined sequence types `JsonList`
and `JsonFields`. -/
inductive Json where
  | null
  | bool (b : Bool)
  | num (n : Int)
  | str (s : String)
  | arr (elems : JsonList)
  | obj (fields : JsonFields)
deriving DecidableEq, Repr

inductive JsonList where
  | nil
  | cons (hd : Json) (tl : JsonList)
deriving DecidableEq, Repr

inductive JsonFields where
  | nil
  | cons (key : String) (val : Json) (tl : JsonFields)
deriving DecidableEq, Repr

end

/-- JavaScript truthiness of a JSON value: `null`, `false`, `0` and the empty
string are falsy; every object and array is truthy. -/
def jsTruthy : Json → Bool
  | .null => false
  | .bool b => b
  | .num n => n != 0
  | .str s => s != ""
  | .arr _ => true
  | .obj _ => true

/-! ### ASCII character classes used by the lodash model -/

def isLowerA (c : Char) : Bool := 97 ≤ c.toNat && c.toNat ≤ 122

def isUpperA (c : Char) : Bool := 65 ≤ c.toNat && c.toNat ≤ 90

def isDigitA (c : Char) : Bool := 48 ≤ c.toNat && c.toNat ≤ 57

def isLetterA (c : Char) : Bool := isLowerA c || isUpperA c

def isAlnumA (c : Char) : Bool := isLetterA c || isDigitA c

/-- Characters of lodash's `rsBreakRange` restricted to ASCII: every ASCII
character that is not alphanumeric lies in the range (via `rsNonCharRange`
and `rsSpaceRange`). -/
def isBreakA (c : Char) : Bool := c.toNat ≤ 127 && !(isAlnumA c)

/-! ### lodash `_.upperCase`, modelled for ASCII strings

The source maps `_.upperCase` over the ticker list.  lodash's `upperCase`
is `createCompounder`: it deburrs the string (identity on ASCII), removes
apostrophes, splits it into words with `words`, uppercases each word and
joins them with single spaces.  `words` picks `unicodeWords` when the string
matches `reHasUnicodeWord` (any non-alphanumeric-non-space character, a
lower/upper pair, a letter/digit pair, or two uppers followed by a lower)
and `asciiWords` (maximal alphanumeric runs) otherwise.  The model below
follows those regexes on ASCII input, including ordinal tokens such as
`1st`; the emoji alternative and non-ASCII ranges are outside its scope. -/

/-- Model of lodash `reHasUnicodeWord` on a list of ASCII characters. -/
def hasUnicodeWordA : List Char → Bool
  | [] => false
  | c :: rest =>
    if !(isAlnumA c || c = ' ') then true
    else
      match rest with
      | [] => false
      | d :: rest2 =>
        if (isLowerA c && isUpperA d) || (isDigitA c && isLetterA d) ||
           (isLetterA c && isDigitA d) then true
        else if isUpperA c && isUpperA d &&
                (match rest2 with | e :: _ => isLowerA e | [] => false) then true
        else hasUnicodeWordA (d :: rest2)

/-- Model of lodash `asciiWords`: maximal runs of alphanumeric characters. -/
def asciiWordsA : List Char → List (List Char)
  | [] => []
  | c :: rest =>
    if isAlnumA c then
      match asciiWordsA rest with
      | [] => [[c]]
      | w :: ws =>
        match rest with
        | [] => [[c]]
        | d :: _ => if isAlnumA d then (c :: w) :: ws else [c] :: w :: ws
    else asciiWordsA rest

/-- Lookahead of the first `reUnicodeWord` alternative: break character,
uppercase letter, or end of input. -/
def lookaheadLower (rest : List Char) : Bool :=
  match rest with
  | [] => true
  | c :: _ => isBreakA c || isUpperA c

/-- First `reUnicodeWord` alternative on ASCII: an optional uppercase letter,
a nonempty maximal run of lowercase letters, with lookahead
(break, uppercase, or end). -/
def uwAlt1 (cs : List Char) : Option (List Char × List Char) :=
  match cs with
  | [] => none
  | c :: rest =>
    if isUpperA c then
      let p := rest.span isLowerA
      if p.1 ≠ [] && lookaheadLower p.2 then some (c :: p.1, p.2) else none
    else
      let p := cs.span isLowerA
      if p.1 ≠ [] && lookaheadLower p.2 then some (p.1, p.2) else none

/-- Second `reUnicodeWord` alternative on ASCII: a nonempty run of uppercase
letters with lookahead (break, upper-then-lower, or end); regex backtracking
gives back one trailing uppercase letter when a lowercase letter follows. -/
def uwAlt2 (cs : List Char) : Option (List Char × List Char) :=
  let p := cs.span isUpperA
  if p.1 = [] then none
  else
    match p.2 with
    | [] => some p
    | c :: _ =>
      if isBreakA c then some p
      else if isLowerA c && p.1.length ≥ 2 then
        some (p.1.take (p.1.length - 1), p.1.drop (p.1.length - 1) ++ p.2)
      else none

/-- Third `reUnicodeWord` alternative on ASCII: optional uppercase letter and
a nonempty run of lowercase letters, no lookahead. -/
def uwAlt3 (cs : List Char) : Option (List Char × List Char) :=
  match cs with
  | [] => none
  | c :: rest =>
    if isUpperA c then
      let p := rest.span isLowerA
      if p.1 ≠ [] then some (c :: p.1, p.2) else none
    else
      let p := cs.span isLowerA
      if p.1 ≠ [] then some (p.1, p.2) else none

/-- Fourth `reUnicodeWord` alternative: a nonempty run of uppercase letters. -/
def uwAlt4 (cs : List Char) : Option (List Char × List Char) :=
  let p := cs.span isUpperA
  if p.1 = [] then none else some p

/-- Ordinal literal of `rsOrdLower`/`rsOrdUpper`: `1st`, `2nd`, `3rd`, or a
digit other than 1, 2, 3 followed by `th` (respectively the uppercase
variants).  Returns the literal and the remaining characters. -/
def ordLiteral (upper : Bool) (cs : List Char) : Option (List Char × List Char) :=
  match cs with
  | d :: a :: b :: rest =>
    if !(isDigitA d) then none
    else
      let suff : List Char := [a, b]
      let stOk := if upper then suff = ['S', 'T'] else suff = ['s', 't']
      let ndOk := if upper then suff = ['N', 'D'] else suff = ['n', 'd']
      let rdOk := if upper then suff = ['R', 'D'] else suff = ['r', 'd']
      let thOk := if upper then suff = ['T', 'H'] else suff = ['t', 'h']
      if d = '1' && stOk then some ([d, a, b], rest)
      else if d = '2' && ndOk then some ([d, a, b], rest)
      else if d = '3' && rdOk then some ([d, a, b], rest)
      else if d ≠ '1' && d ≠ '2' && d ≠ '3' && thOk then some ([d, a, b], rest)
      else none
  | _ => none

/-- Lookahead of the ordinal alternatives: `(?=\b|[a-z_])` for the uppercase
ordinal (fails only on an uppercase letter or digit), `(?=\b|[A-Z_])` for the
lowercase one (fails only on a lowercase letter or digit). -/
def ordLookahead (upper : Bool) (rest : List Char) : Bool :=
  match rest with
  | [] => true
  | c :: _ => if upper then !(isUpperA c || isDigitA c) else !(isLowerA c || isDigitA c)

/-- Ordinal alternative (`rsOrdUpper` / `rsOrdLower`): a greedy run of digits
backtracked so that the tail forms an ordinal literal, with lookahead. -/
def uwOrd (upper : Bool) (cs : List Char) : Option (List Char × List Char) :=
  let ds := (cs.span isDigitA).1
  let tryAt : Nat → Option (List Char × List Char) := fun k =>
    match ordLiteral upper (cs.drop k) with
    | some (lit, rest) => if ordLookahead upper rest then some (cs.take k ++ lit, rest) else none
    | none => none
  (List.range (ds.length + 1)).reverse.firstM tryAt

/-- Digits alternative (`rsDigits`): a nonempty run of digits. -/
def uwAlt7 (cs : List Char) : Option (List Char × List Char) :=
  let p := cs.span isDigitA
  if p.1 = [] then none else some p

/-- One match attempt of `reUnicodeWord` at the current position, trying the
alternatives in the order of the lodash regex. -/
def uwMatchAt (cs : List Char) : Option (List Char × List Char) :=
  (uwAlt1 cs).orElse fun _ =>
  (uwAlt2 cs).orElse fun _ =>
  (uwAlt3 cs).orElse fun _ =>
  (uwAlt4 cs).orElse fun _ =>
  (uwOrd true cs).orElse fun _ =>
  (uwOrd false cs).orElse fun _ =>
  uwAlt7 cs

/-- Global scan of `reUnicodeWord`: repeatedly match at the current position,
advancing one character when no alternative matches.  The fuel argument is
the length of the input; every step consumes at least one character. -/
def uwScan : Nat → List Char → List (List Char)
  | 0, _ => []
  | _ + 1, [] => []
  | fuel + 1, c :: rest =>
    match uwMatchAt (c :: rest) with
    | some (tok, rest2) => tok :: uwScan fuel rest2
    | none => uwScan fuel rest

/-- Model of lodash `unicodeWords` on ASCII input. -/
def unicodeWordsA (cs : List Char) : List (List Char) := uwScan cs.length cs

/-- Model of lodash `words` (no pattern argument) on ASCII input. -/
def lodashWords (cs : List Char) : List (List Char) :=
  if hasUnicodeWordA cs then unicodeWordsA cs else asciiWordsA cs

/-- ASCII uppercase of a character list (`String.prototype.toUpperCase`). -/
def upperCharsA (cs : List Char) : List Char := cs.map Char.toUpper

/-- The apostrophe character, removed by lodash compounders before splitting. -/
def aposChar : Char := Char.ofNat 39

/-- Model of lodash `_.upperCase` on ASCII strings: remove apostrophes
(deburr is the identity on ASCII), split into words, uppercase each word and
join with single spaces. -/
def lodashUpperCase (s : String) : String :=
  let ws := lodashWords ((s.toList.filter (fun c => c ≠ aposChar)))
  String.mk (List.intercalate [' '] (ws.map upperCharsA))

/-! ### Node `Buffer` base64 decoding and `'ascii'` encoding -/

/-- Value of a character in the base64 alphabet (standard and URL-safe),
`none` for every other character.  Node's decoder accepts both alphabets
and skips characters outside them instead of failing. -/
def b64Val (c : Char) : Option Nat :=
  if isUpperA c then some (c.toNat - 65)
  else if isLowerA c then some (c.toNat - 97 + 26)
  else if isDigitA c then some (c.toNat - 48 + 52)
  else if c = '+' || c = '-' then some 62
  else if c = '/' || c = '_' then some 63
  else none

/-- Byte output of a list of 6-bit groups: each complete group of four
yields three bytes, a trailing group of three yields two bytes, of two one
byte, and a single trailing value is dropped. -/
def b64Groups : List Nat → List Nat
  | a :: b :: c :: d :: rest =>
    (a * 4 + b / 16) :: ((b % 16) * 16 + c / 4) :: ((c % 4) * 64 + d) :: b64Groups rest
  | [a, b, c] => [a * 4 + b / 16, (b % 16) * 16 + c / 4]
  | [a, b] => [a * 4 + b / 16]
  | _ => []

/-- Model of `new Buffer(s, 'base64')`: a lenient decoder that reads up to
the first padding character, ignores characters outside the base64
alphabets, and never throws.  Invalid input (such as a string with no
base64 characters at all) silently yields an empty buffer. -/
def nodeBase64Decode (s : String) : List Nat :=
  b64Groups ((s.toList.takeWhile (fun c => c ≠ '=')).filterMap b64Val)

/-- Model of `buff.toString('ascii')`: each byte is masked to 7 bits and
taken as a character code. -/
def bufToAscii (bs : List Nat) : String :=
  String.mk (bs.map (fun b => Char.ofNat (b % 128)))

/-! ### Moment model -/

/-- Model of a valid `moment` instance: a calendar date and time of day.
The library stores `moment(json.when)`, which never throws: an unparseable
string yields an *invalid* moment object, modelled as `Option Mom` with
`none` for the invalid moment. -/
structure Mom where
  year : Nat
  month : Nat
  day : Nat
  hour : Nat
  minute : Nat
  sec : Nat
deriving DecidableEq, Repr

/-- Left-pad the decimal form of `n` to two digits. -/
def pad2 (n : Nat) : String :=
  if n < 10 then "0" ++ toString n else toString n

/-- Left-pad the decimal form of `n` to four digits. -/
def pad4 (n : Nat) : String :=
  if n < 10 then "000" ++ toString n
  else if n < 100 then "00" ++ toString n
  else if n < 1000 then "0" ++ toString n
  else toString n

/-- Model of `when.format('YYYY-MM-DD[T]hh:mm:ss')`.  The `hh` token is
moment's zero-padded 12-hour clock: hour 0 renders as `12`, hour 13 as
`01`, and hour 9 as `09`. -/
def momentFormat (m : Mom) : String :=
  let h12 := if m.hour % 12 = 0 then 12 else m.hour % 12
  pad4 m.year ++ "-" ++ pad2 m.month ++ "-" ++ pad2 m.day ++ "T" ++
    pad2 h12 ++ ":" ++ pad2 m.minute ++ ":" ++ pad2 m.sec

/-- Decimal digit value of a character, `none` when it is not a digit. -/
def digitVal (c : Char) : Option Nat :=
  if isDigitA c then some (c.toNat - 48) else none

/-- Model of `moment(string)` parsing restricted to the strict
`YYYY-MM-DDTHH:mm:ss` ISO form the service uses; every other string yields
the invalid moment `none`.  The real library accepts further ISO variants,
but on every input it returns an object (valid or invalid) and never
throws, which is the behavior the claims depend on. -/
def momentParse (s : String) : Option Mom :=
  match s.toList with
  | [y1, y2, y3, y4, h1, mo1, mo2, h2, d1, d2, t1, hh1, hh2, c1, mi1, mi2, c2, s1, s2] =>
    if h1 = '-' && h2 = '-' && t1 = 'T' && c1 = ':' && c2 = ':' then
      match digitVal y1, digitVal y2, digitVal y3, digitVal y4,
            digitVal mo1, digitVal mo2, digitVal d1, digitVal d2,
            digitVal hh1, digitVal hh2, digitVal mi1, digitVal mi2,
            digitVal s1, digitVal s2 with
      | some a, some b, some c, some d, some e, some f, some g, some h,
        some i, some j, some k, some l, some m, some n =>
        let mo := e * 10 + f
        let da := g * 10 + h
        let ho := i * 10 + j
        let mi := k * 10 + l
        let se := m * 10 + n
        if 1 ≤ mo && mo ≤ 12 && 1 ≤ da && da ≤ 31 && ho ≤ 23 && mi ≤ 59 && se ≤ 59 then
          some ⟨a * 1000 + b * 100 + c * 10 + d, mo, da, ho, mi, se⟩
        else none
      | _, _, _, _, _, _, _, _, _, _, _, _, _, _ => none
    else none
  | _ => none

/-! ### The `Data` envelope -/

/-- The wire shape of an inbound `/data` push (spec section 6): a timestamp
string, a list of ticker strings, and a base64 payload string. -/
structure WireData where
  when : String
  tickers : List String
  payload : String
deriving DecidableEq, Repr

/-- The mutable `this._payload` object of a `Data` instance: a `buff` field
(deleted after a successful decode, hence optional) and a `decoded` field
(initially `undefined`, hence optional). -/
structure PayloadSlot where
  buff : Option (List Nat)
  decoded : Option Json
deriving DecidableEq, Repr

/-- State of a constructed `Data` instance. -/
structure Data where
  when : Option Mom
  tickers : List String
  payload : PayloadSlot
deriving DecidableEq, Repr

/-- The `Data` constructor.  The result is wrapped in `Except` to model
JavaScript exception flow; no step of the constructor body can throw on a
well-shaped wire body (`moment(...)` returns an invalid moment rather than
throwing, `new Buffer(..., 'base64')` decodes leniently, and
`Array.prototype.map` is total), so the result is always `Except.ok`. -/
def constructData (j : WireData) : Except JsErr Data :=
  Except.ok
    { when := momentParse j.when
      tickers := j.tickers.map lodashUpperCase
      payload := { buff := some (nodeBase64Decode j.payload), decoded := none } }

/-- Ticker list of the constructed envelope (`GetTickers()`), with the empty
list as the unreachable error fallback. -/
def constructedTickers (j : WireData) : List String :=
  match constructData j with
  | .ok d => d.tickers
  | .error _ => []

/-- Payload slot of the freshly constructed envelope. -/
def constructedSlot (j : WireData) : PayloadSlot :=
  match constructData j with
  | .ok d => d.payload
  | .error _ => { buff := none, decoded := none }

deriving instance DecidableEq for Except

/-- Observable outcome of one `Data.payload(next)` call: the callback was
invoked with an error or a value, an exception escaped, or nothing happened
(success path with no callback supplied). -/
inductive CallOutcome where
  | called (arg : Except JsErr Json)
  | threw (e : JsErr)
  | silent
deriving DecidableEq, Repr

/-- Result of one `Data.payload(next)` call: the payload state afterwards,
the observable outcome, and whether `zlib.gunzip` was invoked. -/
structure PayloadCallResult where
  state : PayloadSlot
  outcome : CallOutcome
  gunzipCalled : Bool
deriving DecidableEq, Repr

/-- The error built by the final branch of `Data.payload`. -/
def invalidStateError : JsErr := .typeError "No payload buffer or decoded value?"

/-- Model of `Data.payload(next)`.  `gunzip` is the zlib oracle delivering
the asynchronous decompression outcome for the stored buffer, `parseJSON`
the `JSON.parse` oracle, and `hasNext` whether `next` is a function.
The branch structure mirrors the source: when a buffer is present, gunzip
it; on gunzip error report through the callback or throw; on success parse
the ASCII text — a parse exception escapes before `decoded` is assigned and
before the buffer is deleted — then store the value, delete the buffer and
report; with no buffer, a truthy `decoded` is served directly, and
otherwise a `TypeError` is reported. -/
def payloadCall (gunzip : List Nat → Except JsErr (List Nat))
    (parseJSON : String → Except JsErr Json)
    (st : PayloadSlot) (hasNext : Bool) : PayloadCallResult :=
  match st.buff with
  | some b =>
    match gunzip b with
    | .error e => ⟨st, if hasNext then .called (.error e) else .threw e, true⟩
    | .ok ub =>
      match parseJSON (bufToAscii ub) with
      | .error e => ⟨st, .threw e, true⟩
      | .ok v => ⟨⟨none, some v⟩, if hasNext then .called (.ok v) else .silent, true⟩
  | none =>
    match st.decoded with
    | some v =>
      if jsTruthy v then ⟨st, if hasNext then .called (.ok v) else .silent, false⟩
      else ⟨st, if hasNext then .called (.error invalidStateError)
                else .threw invalidStateError, false⟩
    | none =>
      ⟨st, if hasNext then .called (.error invalidStateError)
           else .threw invalidStateError, false⟩

/-! ### The `Client`: outbound commands

Each outbound operation is modelled as a function of the relevant
configuration, the transport oracle (the outcome `request` delivers to its
completion callback), and whether a callback `next` was supplied.  The
result records the issued requests, the sequence of callback invocations,
and any exception that escaped. -/

/-- The client's local inbound address (`this._local`): a parsed public URL
or a synthesized `protocol`/`port` object, extended with the pathname. -/
structure LocalAddr where
  protocol : String
  host : Option String
  port : Option Nat
  pathname : Option String
deriving DecidableEq, Repr

/-- JSON body of the `/register` requests: `{ href: <local address>, verb: "POST" }`. -/
structure RegisterBody where
  href : LocalAddr
  verb : String
deriving DecidableEq, Repr

/-- HTTP method of an outbound request. -/
inductive Verb where
  | GET
  | PUT
  | DELETE
deriving DecidableEq, Repr

/-- One outbound HTTP request as the library hands it to the `request`
module: method, path on the remote server, query object, and optional JSON
body.  A query value of `none` models a JavaScript `undefined` property
value (the key itself is still present on the query object). -/
structure RequestRecord where
  verb : Verb
  path : String
  query : List (String × Option String)
  body : Option RegisterBody
deriving DecidableEq, Repr

/-- Outcome the HTTP transport delivers to the completion callback: a
transport-level error, or a response with a status code and a body. -/
inductive TransportOutcome where
  | err (e : JsErr)
  | resp (status : Nat) (body : String)
deriving DecidableEq, Repr

/-- Observable run of one outbound operation: the requests issued, the
arguments of the successive callback invocations (`none` models the `null`
success argument), and the exception that escaped, if any. -/
structure OpRun where
  requests : List RequestRecord
  callbackCalls : List (Option JsErr)
  threw : Option JsErr
deriving DecidableEq, Repr

/-- Model of `encodeURIComponent` on ASCII characters: alphanumerics and
the unreserved marks are kept, every other character is percent-encoded
with uppercase hexadecimal digits. -/
def isUnreservedURI (c : Char) : Bool :=
  isAlnumA c || c = '-' || c = '_' || c = '.' || c = '!' || c = '~' ||
    c = '*' || c = '(' || c = ')' || c = aposChar

/-- Uppercase hexadecimal digit of a value below 16. -/
def hexDigitU (n : Nat) : Char :=
  if n < 10 then Char.ofNat (48 + n) else Char.ofNat (55 + n)

/-- Percent-encode one ASCII character as `encodeURIComponent` does. -/
def encodeChar (c : Char) : List Char :=
  if isUnreservedURI c then [c]
  else ['%', hexDigitU (c.toNat / 16), hexDigitU (c.toNat % 16)]

/-- Model of `encodeURIComponent` for ASCII strings. -/
def encodeURIComponentA (s : String) : String :=
  String.mk (s.toList.flatMap encodeChar)

/-- Model of `querystring.stringify` as `url.format` applies it to the query
object: every key is rendered, and a JavaScript `undefined` value (and any
other non-primitive) stringifies to the empty string, so an absent value
still produces `key=`. -/
def stringifyQuery (q : List (String × Option String)) : String :=
  String.intercalate "&"
    (q.map (fun kv => encodeURIComponentA kv.1 ++ "=" ++ encodeURIComponentA (kv.2.getD "")))

/-- Model of `url.format` on the object `_remoteUrl` builds: the remote base
followed by the pathname, and a `?`-search rendered from the query object
whenever that object has at least one key. -/
def urlFormat (base : String) (path : String) (q : List (String × Option String)) : String :=
  base ++ path ++ (if q.isEmpty then "" else "?" ++ stringifyQuery q)

/-- The `ConfigurationError` of the spec, as the source builds it. -/
def secretMissingError : JsErr :=
  .error "Secret is not specified, server requests are unavailable."

/-- Shared completion callback of `connect`, `start`, `stop` and `restart`:
a transport error is passed through; a non-200 status becomes a
`Bad status code` error; the callback receives the error or `null`, and
with no callback an error is thrown. -/
def statusCheckedCompletion (tr : TransportOutcome) (hasNext : Bool) :
    List (Option JsErr) × Option JsErr :=
  match tr with
  | .err e => (if hasNext then [some e] else [], if hasNext then none else some e)
  | .resp code body =>
    let err : Option JsErr := if code ≠ 200 then some (.badStatus code body) else none
    (if hasNext then [err] else [], if hasNext then none else err)

/-- Model of `Client.connect(next)`: a PUT to `/register` with the local
address as the `href` of the JSON body (`this._local` is an object, hence
always truthy), checked for a 200 status on completion. -/
def Client.connect (localAddr : LocalAddr) (tr : TransportOutcome) (hasNext : Bool) : OpRun :=
  let req : RequestRecord := ⟨.PUT, "/register", [], some ⟨localAddr, "POST"⟩⟩
  let c := statusCheckedCompletion tr hasNext
  ⟨[req], c.1, c.2⟩

/-- Model of `Client.disconnect(next)`: a DELETE to `/register` with the
same body as `connect`.  The completion callback reads only the transport
error and never inspects the response status. -/
def Client.disconnect (localAddr : LocalAddr) (tr : TransportOutcome) (hasNext : Bool) : OpRun :=
  let req : RequestRecord := ⟨.DELETE, "/register", [], some ⟨localAddr, "POST"⟩⟩
  match tr with
  | .err e => ⟨[req], if hasNext then [some e] else [], if hasNext then none else some e⟩
  | .resp _ _ => ⟨[req], if hasNext then [none] else [], none⟩

/-- Shared body of the three `/serv` commands.  `secret` is
`this._secret` (`none` models `undefined`; the empty string is also falsy).
When the secret is falsy the code builds the error and reports it — but the
guard has no `return`, so with a callback supplied execution falls through
and the GET is issued anyway, reaching the callback a second time on
completion; only the throwing branch (no callback) aborts the function. -/
def servCommand (path : String) (extraQuery : List (String × Option String))
    (secret : Option String) (tr : TransportOutcome) (hasNext : Bool) : OpRun :=
  let req : RequestRecord := ⟨.GET, path, ("token", secret) :: extraQuery, none⟩
  let secretFalsy := secret = none || secret = some ""
  if secretFalsy then
    if hasNext then
      let c := statusCheckedCompletion tr true
      ⟨[req], some secretMissingError :: c.1, c.2⟩
    else
      ⟨[], [], some secretMissingError⟩
  else
    let c := statusCheckedCompletion tr hasNext
    ⟨[req], c.1, c.2⟩

/-- Model of `Client.start(next)`: an authenticated GET to `/serv/start`. -/
def Client.start (secret : Option String) (tr : TransportOutcome) (hasNext : Bool) : OpRun :=
  servCommand "/serv/start" [] secret tr hasNext

/-- Model of `Client.stop(next)`: an authenticated GET to `/serv/stop`. -/
def Client.stop (secret : Option String) (tr : TransportOutcome) (hasNext : Bool) : OpRun :=
  servCommand "/serv/stop" [] secret tr hasNext

/-- Model of `Client.restart(next, when)`: an authenticated GET to
`/serv/reset` whose query always carries a `date` key — its value is the
formatted moment when `when` is a moment, and `undefined` otherwise. -/
def Client.restart (secret : Option String) (when : Option Mom)
    (tr : TransportOutcome) (hasNext : Bool) : OpRun :=
  servCommand "/serv/reset" [("date", when.map momentFormat)] secret tr hasNext

/-! ### Inbound endpoints -/

/-- Observable event of an inbound route handler: a JSON response sent with
a status code and the `success` flag, or the invocation of one of the
application handlers. -/
inductive InEvent where
  | respondJson (status : Nat) (success : Bool)
  | callDataHandler (d : Data)
  | callStatusHandler (signal : Option String)
deriving DecidableEq, Repr

/-- Model of the `POST /data` route: respond `{success: true}` with
status 200 first, then construct the envelope and invoke `handlers.data`
(if the construction threw, the handler is never reached, but the response
is already sent). -/
def dataRoute (body : WireData) : List InEvent :=
  .respondJson 200 true ::
    (match constructData body with
     | .ok d => [.callDataHandler d]
     | .error _ => [])

/-- Model of the `POST /signal` route: respond `{success: true}` with
status 200 first, then invoke `handlers.status` with `req.body.signal`. -/
def signalRoute (signal : Option String) : List InEvent :=
  [.respondJson 200 true, .callStatusHandler signal]

/-- Whether an inbound event is the HTTP response. -/
def InEvent.isRespond : InEvent → Bool
  | .respondJson _ _ => true
  | _ => false

/-! ### Handler registration (`Client.on`) -/

/-- A JavaScript argument value as far as `Client.on` inspects it. -/
inductive JsVal where
  | str (s : String)
  | fn (id : Nat)
  | num (n : Int)
  | undef
deriving DecidableEq, Repr

/-- Model of `_.isString`. -/
def JsVal.isString : JsVal → Bool
  | .str _ => true
  | _ => false

/-- Model of `_.isFunction`. -/
def JsVal.isFunction : JsVal → Bool
  | .fn _ => true
  | _ => false

/-- The three handler slots of the client. -/
structure Handlers where
  error : JsVal
  status : JsVal
  data : JsVal
deriving DecidableEq, Repr

/-- Result of one `on(event, handler)` call: the handler slots afterwards,
whether the `assert` guard threw, and the argument the current error
handler was invoked with, if it was. -/
structure OnResult where
  handlers : Handlers
  assertThrew : Bool
  errorHandlerArg : Option JsErr
deriving DecidableEq, Repr

/-- Model of `Client.on(event, handler)`: the `assert` guard throws unless
`event` is a string and `handler` a function; then the named slot is
replaced, and an unrecognized name is reported through the current error
handler without modifying any slot. -/
def Client.on (h : Handlers) (event handler : JsVal) : OnResult :=
  match event, handler with
  | .str s, .fn k =>
    if s = "error" then ⟨{ h with error := .fn k }, false, none⟩
    else if s = "status" then ⟨{ h with status := .fn k }, false, none⟩
    else if s = "data" then ⟨{ h with data := .fn k }, false, none⟩
    else ⟨h, false, some (.error ("Unknown event: " ++ s))⟩
  | _, _ => ⟨h, true, none⟩

/-! ### Concrete oracle instances used by witnesses and counterexamples -/

/-- Bytes of the real gzip compression of the one-character JSON document
`0` (gzip stream produced by a reference implementation; its base64 form is
`H4sIAAAAAAACAzMAACHf2/QBAAAA`). -/
def gzBytesZero : List Nat :=
  [31, 139, 8, 0, 0, 0, 0, 0, 2, 3, 51, 0, 0, 33, 223, 219, 244, 1, 0, 0, 0]

/-- Bytes of the real gzip compression of the text `x` (base64
`H4sIAAAAAAACA6sAAIMW3IwBAAAA`), which is not valid JSON. -/
def gzBytesX : List Nat :=
  [31, 139, 8, 0, 0, 0, 0, 0, 2, 3, 171, 0, 0, 131, 22, 220, 140, 1, 0, 0, 0]

/-- Bytes of the real gzip compression of the JSON document `[1]` (base64
`H4sIAAAAAAACA4s2jAUAuDIvTAMAAAA=`). -/
def gzBytesArr : List Nat :=
  [31, 139, 8, 0, 0, 0, 0, 0, 2, 3, 139, 54, 140, 5, 0, 184, 50, 47, 76, 3, 0, 0, 0]

/-- Stand-in for `zlib.gunzip` on the three concrete gzip streams above,
mapping each to the bytes it really decompresses to (`0`, `x` and `[1]`);
every other buffer reports zlib's incorrect-header-check error. -/
def gunzipStub : List Nat → Except JsErr (List Nat) := fun b =>
  if b = gzBytesZero then .ok [48]
  else if b = gzBytesX then .ok [120]
  else if b = gzBytesArr then .ok [91, 49, 93]
  else .error (.error "incorrect header check")

/-- Stand-in for `JSON.parse` on the documents the concrete runs reach:
`0` and `[1]` parse to the corresponding values, everything else throws a
`SyntaxError`. -/
def jsonParseStub : String → Except JsErr Json := fun s =>
  if s = "0" then .ok (.num 0)
  else if s = "[1]" then .ok (.arr (.cons (.num 1) .nil))
  else .error (.syntaxError ("Unexpected token " ++ s.take 1 ++ " in JSON at position 0"))

/-- A concrete local address, as synthesized for a locally running client. -/
def localExample : LocalAddr := ⟨"http:", none, some 8080, some "/client"⟩

/-- Plain character-wise uppercasing of a string — the "uppercased form"
of a ticker in the claim's sense (what `_.toUpper` or
`String.prototype.toUpperCase` would produce). -/
def toUpperPlain (s : String) : String := String.mk (s.toList.map Char.toUpper)

/-- Whether an outcome is a callback invocation. -/
def CallOutcome.isCalled : CallOutcome → Bool
  | .called _ => true
  | _ => false

/-! ### Helper lemmas -/

/-- Exactly one of the two payload fields is present. -/
def exactlyOne (st : PayloadSlot) : Bool := st.buff.isSome ^^ st.decoded.isSome

/-- A `payload` call on a buffer-less slot never changes the state. -/
theorem payloadCall_state_noBuff (gz : List Nat → Except JsErr (List Nat))
    (ps : String → Except JsErr Json) (sd : Option Json) (hasNext : Bool) :
    (payloadCall gz ps ⟨none, sd⟩ hasNext).state = ⟨none, sd⟩ := by
  cases sd with
  | none => simp [payloadCall]
  | some v =>
    by_cases h : jsTruthy v <;> simp [payloadCall, h]

/-! ### Claim theorems -/

/-- Claim C1, counterexample.  An envelope built from the wire payload
`H4sIAAAAAAACAzMAACHf2/QBAAAA` — valid base64 of a valid gzip stream whose
content is the valid JSON document `0` — delivers `0` on the first
`payload` call, but the second call, finding the buffer deleted and the
memoized value falsy, delivers the invalid-state `TypeError` instead of the
memoized value (the truthiness test `!!this._payload.decoded` cannot see a
falsy decoded value). -/
theorem payload_memo_falsy_counterexample :
    constructedSlot ⟨"2016-01-01T00:00:00", ["A"], "H4sIAAAAAAACAzMAACHf2/QBAAAA"⟩ =
      ⟨some gzBytesZero, none⟩ ∧
    payloadCall gunzipStub jsonParseStub ⟨some gzBytesZero, none⟩ true =
      ⟨⟨none, some (.num 0)⟩, .called (.ok (.num 0)), true⟩ ∧
    payloadCall gunzipStub jsonParseStub ⟨none, some (.num 0)⟩ true =
      ⟨⟨none, some (.num 0)⟩, .called (.error invalidStateError), false⟩ ∧
    CallOutcome.called (.error invalidStateError) ≠ .called (.ok (.num 0)) := by
  decide

/-- Claim C1, amended: when the decoded JSON value is truthy, the first
`payload` call decompresses, memoizes and delivers the value, and a second
call delivers the same value again without invoking decompression. -/
theorem payload_memoized_truthy (gz : List Nat → Except JsErr (List Nat))
    (ps : String → Except JsErr Json) (b ub : List Nat) (v : Json)
    (hgz : gz b = .ok ub) (hps : ps (bufToAscii ub) = .ok v)
    (hv : jsTruthy v = true) :
    payloadCall gz ps ⟨some b, none⟩ true = ⟨⟨none, some v⟩, .called (.ok v), true⟩ ∧
    payloadCall gz ps ⟨none, some v⟩ true = ⟨⟨none, some v⟩, .called (.ok v), false⟩ := by
  constructor
  · simp [payloadCall, hgz, hps]
  · simp [payloadCall, hv]

/-- Claim C1, witness: the amended theorem at the gzip stream of `[1]`. -/
theorem payload_memoized_truthy_witness :
    payloadCall gunzipStub jsonParseStub ⟨some gzBytesArr, none⟩ true =
      ⟨⟨none, some (.arr (.cons (.num 1) .nil))⟩,
        .called (.ok (.arr (.cons (.num 1) .nil))), true⟩ ∧
    payloadCall gunzipStub jsonParseStub ⟨none, some (.arr (.cons (.num 1) .nil))⟩ true =
      ⟨⟨none, some (.arr (.cons (.num 1) .nil))⟩,
        .called (.ok (.arr (.cons (.num 1) .nil))), false⟩ :=
  payload_memoized_truthy gunzipStub jsonParseStub gzBytesArr [91, 49, 93]
    (.arr (.cons (.num 1) .nil)) (by decide) (by decide) (by decide)

/-- Claim C2, counterexample.  On the envelope holding the gzip stream of
the non-JSON text `x`, decompression succeeds and `JSON.parse` throws; the
exception escapes the zlib callback, so the supplied callback is *not*
invoked (the outcome is a thrown `SyntaxError`, not a callback call), and
the buffer is in fact retained, the parse preceding the `delete`. -/
theorem payload_parse_throw_counterexample :
    payloadCall gunzipStub jsonParseStub ⟨some gzBytesX, none⟩ true =
      ⟨⟨some gzBytesX, none⟩,
        .threw (.syntaxError "Unexpected token x in JSON at position 0"), true⟩ ∧
    (CallOutcome.threw (.syntaxError "Unexpected token x in JSON at position 0")).isCalled
      = false := by
  decide

/-- Claim C2, amended: on decompression failure the callback is invoked
with the zlib error (or the error is thrown when no callback was supplied)
and the envelope does not transition; on JSON parse failure the parse
exception escapes — the callback is not invoked — and the envelope likewise
does not transition, the buffer being retained. -/
theorem payload_failure_behavior (gz : List Nat → Except JsErr (List Nat))
    (ps : String → Except JsErr Json) (b : List Nat) (dec : Option Json)
    (hasNext : Bool) :
    (∀ e, gz b = .error e →
      payloadCall gz ps ⟨some b, dec⟩ hasNext =
        ⟨⟨some b, dec⟩, if hasNext then .called (.error e) else .threw e, true⟩) ∧
    (∀ ub e, gz b = .ok ub → ps (bufToAscii ub) = .error e →
      payloadCall gz ps ⟨some b, dec⟩ hasNext = ⟨⟨some b, dec⟩, .threw e, true⟩) := by
  constructor
  · intro e hgz
    simp [payloadCall, hgz]
  · intro ub e hgz hps
    simp [payloadCall, hgz, hps]

/-- Claim C2, witness: the amended theorem at a corrupt buffer (gunzip
error) and at the gzip stream of `x` (parse error). -/
theorem payload_failure_behavior_witness :
    payloadCall gunzipStub jsonParseStub ⟨some [9], none⟩ true =
      ⟨⟨some [9], none⟩, .called (.error (.error "incorrect header check")), true⟩ ∧
    payloadCall gunzipStub jsonParseStub ⟨some gzBytesX, none⟩ false =
      ⟨⟨some gzBytesX, none⟩,
        .threw (.syntaxError "Unexpected token x in JSON at position 0"), true⟩ :=
  ⟨(payload_failure_behavior gunzipStub jsonParseStub [9] none true).1
      (.error "incorrect header check") (by decide),
   (payload_failure_behavior gunzipStub jsonParseStub gzBytesX none false).2
      [120] (.syntaxError "Unexpected token x in JSON at position 0")
      (by decide) (by decide)⟩

/-- Claim C3, confirmed: a fresh envelope is in the `Compressed` state with
no decoded value; every `payload` call preserves the exactly-one invariant;
a buffer-less (decoded or exhausted) slot is never mutated; and the only
possible state change is the irreversible transition that drops the buffer
and stores a decoded value. -/
theorem payload_state_invariant (j : WireData)
    (gz : List Nat → Except JsErr (List Nat)) (ps : String → Except JsErr Json)
    (st : PayloadSlot) (hasNext : Bool) :
    exactlyOne (constructedSlot j) = true ∧
    (constructedSlot j).buff.isSome = true ∧
    (constructedSlot j).decoded = none ∧
    (exactlyOne st = true →
      exactlyOne (payloadCall gz ps st hasNext).state = true) ∧
    (st.buff = none → (payloadCall gz ps st hasNext).state = st) ∧
    ((payloadCall gz ps st hasNext).state ≠ st →
      st.buff.isSome = true ∧
      (payloadCall gz ps st hasNext).state.buff = none ∧
      (payloadCall gz ps st hasNext).state.decoded.isSome = true) := by
  refine ⟨by simp [constructedSlot, constructData, exactlyOne],
          by simp [constructedSlot, constructData],
          by simp [constructedSlot, constructData], ?_, ?_, ?_⟩
  · intro hinv
    rcases st with ⟨sb, sd⟩
    cases sb with
    | none => rw [payloadCall_state_noBuff]; exact hinv
    | some b =>
      cases sd with
      | some v => simp [exactlyOne] at hinv
      | none =>
        cases hgz : gz b with
        | error e => simp [payloadCall, hgz, exactlyOne]
        | ok ub =>
          cases hps : ps (bufToAscii ub) with
          | error e => simp [payloadCall, hgz, hps, exactlyOne]
          | ok v => simp [payloadCall, hgz, hps, exactlyOne]
  · intro hb
    rcases st with ⟨sb, sd⟩
    cases hb
    exact payloadCall_state_noBuff gz ps sd hasNext
  · intro hchange
    rcases st with ⟨sb, sd⟩
    cases sb with
    | none => exact absurd (payloadCall_state_noBuff gz ps sd hasNext) hchange
    | some b =>
      cases hgz : gz b with
      | error e => simp [payloadCall, hgz] at hchange
      | ok ub =>
        cases hps : ps (bufToAscii ub) with
        | error e => simp [payloadCall, hgz, hps] at hchange
        | ok v => simp [payloadCall, hgz, hps]

/-- Claim C3, witness: the invariant theorem applied to a concrete wire
body, the concrete oracles, and a decoded-state slot. -/
theorem payload_state_invariant_witness :
    exactlyOne (constructedSlot ⟨"2016-01-01T00:00:00", ["A"], "AA=="⟩) = true ∧
    (payloadCall gunzipStub jsonParseStub ⟨none, some (.num 1)⟩ true).state =
      ⟨none, some (.num 1)⟩ :=
  ⟨(payload_state_invariant ⟨"2016-01-01T00:00:00", ["A"], "AA=="⟩ gunzipStub
      jsonParseStub ⟨none, some (.num 1)⟩ true).1,
   (payload_state_invariant ⟨"2016-01-01T00:00:00", ["A"], "AA=="⟩ gunzipStub
      jsonParseStub ⟨none, some (.num 1)⟩ true).2.2.2.2.1 rfl⟩

/-- Claim C4, code bug.  With no configured secret and a callback supplied,
`start` (likewise `stop` and `restart`) invokes the callback with the
configuration error but — the guard having no `return` — still issues the
GET with an undefined token and invokes the callback a second time on
completion; only the no-callback branch throws synchronously and issues no
request.  The spec's zero-network-calls guarantee is the evident intent of
the guard clause. -/
theorem serv_command_no_secret_still_requests :
    Client.start none (.resp 200 "ok") true =
      ⟨[⟨.GET, "/serv/start", [("token", none)], none⟩],
        [some secretMissingError, none], none⟩ ∧
    Client.stop none (.resp 500 "x") true =
      ⟨[⟨.GET, "/serv/stop", [("token", none)], none⟩],
        [some secretMissingError, some (.badStatus 500 "x")], none⟩ ∧
    Client.restart none none (.resp 200 "ok") true =
      ⟨[⟨.GET, "/serv/reset", [("token", none), ("date", none)], none⟩],
        [some secretMissingError, none], none⟩ ∧
    Client.start none (.resp 200 "ok") false = ⟨[], [], some secretMissingError⟩ := by
  decide

/-- Claim C5, counterexample.  lodash `_.upperCase` is a word compounder,
not plain uppercasing: the ticker `brk.b` becomes `BRK B`, while its
uppercased form is `BRK.B`. -/
theorem tickers_uppercase_counterexample :
    constructedTickers ⟨"2016-01-01T00:00:00", ["brk.b"], "AA=="⟩ = ["BRK B"] ∧
    ["brk.b"].map toUpperPlain = ["BRK.B"] ∧
    ("BRK B" : String) ≠ "BRK.B" := by
  decide

/-- Claim C5, amended: `GetTickers()` returns the lodash-`upperCase` of
every input ticker, in the original order and including duplicates — the
length is preserved and element `i` is `_.upperCase` of input element `i`
(which coincides with plain uppercasing exactly for single-word
alphanumeric tickers). -/
theorem tickers_lodash_upperCase (j : WireData) (i : Nat) :
    constructedTickers j = j.tickers.map lodashUpperCase ∧
    (constructedTickers j).length = j.tickers.length ∧
    (constructedTickers j).get? i = (j.tickers.get? i).map lodashUpperCase := by
  refine ⟨rfl, ?_, ?_⟩
  · simp [constructedTickers, constructData]
  · simp [constructedTickers, constructData, List.get?_eq_getElem?, List.getElem?_map]

/-- Claim C6, counterexample.  Constructing an envelope from the
unparseable timestamp `garbage` and the non-base64 payload `!!!` succeeds:
no `ValidationError` is raised anywhere — the timestamp silently becomes an
invalid moment and the payload silently decodes to an empty buffer. -/
theorem construct_never_validates_counterexample :
    constructData ⟨"garbage", ["a"], "!!!"⟩ =
      .ok ⟨none, ["A"], ⟨some [], none⟩⟩ ∧
    momentParse "garbage" = none ∧
    nodeBase64Decode "!!!" = [] := by
  decide

/-- Claim C6, amended: construction never fails — for every well-shaped
wire body it returns an envelope whose timestamp is whatever `moment`
produced (the invalid moment for unparseable strings) and whose buffer is
the lenient base64 decoding of the payload; both fields default silently. -/
theorem construct_total (j : WireData) :
    constructData j =
      .ok ⟨momentParse j.when, j.tickers.map lodashUpperCase,
            ⟨some (nodeBase64Decode j.payload), none⟩⟩ :=
  rfl

/-- Claim C7, counterexample.  On a 500 response to the DELETE, `connect`'s
contract would report a bad-status error, but `disconnect`'s completion
callback never reads the response status: it invokes the callback with
`null`, treating the failed unregistration as success. -/
theorem disconnect_ignores_status_counterexample :
    (Client.disconnect localExample (.resp 500 "oops") true).callbackCalls = [none] ∧
    (Client.connect localExample (.resp 500 "oops") true).callbackCalls =
      [some (.badStatus 500 "oops")] := by
  decide

/-- Claim C7, amended: `disconnect` issues a DELETE to `/register` with the
same local-address body as `connect` and invokes the callback exactly once,
propagating transport errors — but unlike `connect` it performs no status
check, so any HTTP response, 200 or not, is reported as success. -/
theorem disconnect_contract (la : LocalAddr) (e : JsErr) (code : Nat) (b : String) :
    Client.disconnect la (.err e) true =
      ⟨[⟨.DELETE, "/register", [], some ⟨la, "POST"⟩⟩], [some e], none⟩ ∧
    Client.disconnect la (.resp code b) true =
      ⟨[⟨.DELETE, "/register", [], some ⟨la, "POST"⟩⟩], [none], none⟩ ∧
    (Client.disconnect la (.resp code b) true).requests.map RequestRecord.body =
      (Client.connect la (.resp code b) true).requests.map RequestRecord.body := by
  refine ⟨rfl, rfl, ?_⟩
  simp [Client.disconnect, Client.connect]

/-- Claim C8, counterexample.  A `restart` with no `when` still carries the
`date` key: the query object is built with `date: undefined`, and
`querystring.stringify` renders every key, an undefined value becoming the
empty string — the formatted URL ends in `date=` rather than omitting the
parameter. -/
theorem restart_date_not_omitted_counterexample :
    Client.restart (some "s") none (.resp 200 "ok") true =
      ⟨[⟨.GET, "/serv/reset", [("token", some "s"), ("date", none)], none⟩],
        [none], none⟩ ∧
    urlFormat "http://example" "/serv/reset" [("token", some "s"), ("date", none)] =
      "http://example/serv/reset?token=s&date=" ∧
    ("http://example/serv/reset?token=s&date=" : String) ≠
      "http://example/serv/reset?token=s" := by
  decide

/-- Claim C8, amended: with a configured secret, a moment `when` is
formatted with `YYYY-MM-DD[T]hh:mm:ss` and carried as the `date` query
value (the 2024-03-05 09:30:00 moment yields `2024-03-05T09:30:00`); with
`when` absent the `date` key is still present, with an undefined value that
renders as `date=`. -/
theorem restart_date_parameter (s : String) (m : Mom) (tr : TransportOutcome) :
    (Client.restart (some s) (some m) tr true).requests =
      [⟨.GET, "/serv/reset", [("token", some s), ("date", some (momentFormat m))], none⟩] ∧
    (Client.restart (some s) none tr true).requests =
      [⟨.GET, "/serv/reset", [("token", some s), ("date", none)], none⟩] ∧
    momentFormat ⟨2024, 3, 5, 9, 30, 0⟩ = "2024-03-05T09:30:00" := by
  refine ⟨?_, ?_, by decide⟩ <;>
    by_cases hs : s = "" <;>
      simp [Client.restart, servCommand, hs]

/-- Claim C9, confirmed: both inbound routes emit the HTTP 200
`success: true` response as their first event, every later event is a
handler invocation (no further response is sent), so the handler's outcome
cannot affect the response already sent. -/
theorem inbound_ack_before_handler (body : WireData) (sig : Option String) :
    (dataRoute body).head? = some (.respondJson 200 true) ∧
    (dataRoute body).tail.filter InEvent.isRespond = [] ∧
    signalRoute sig = [.respondJson 200 true, .callStatusHandler sig] := by
  refine ⟨rfl, ?_, rfl⟩
  simp [dataRoute, constructData, InEvent.isRespond]

/-- Claim C10, confirmed: unless the event is a string and the handler a
function, `on` throws the assertion error synchronously, modifying no
handler slot and never reaching the error handler; conversely the
unknown-event reporting path (error handler invoked, slots unchanged, no
assertion) is reachable only with a string event and a function handler. -/
theorem on_assert_guard (h : Handlers) (e f : JsVal) :
    ((e.isString && f.isFunction) = false → Client.on h e f = ⟨h, true, none⟩) ∧
    ((Client.on h e f).errorHandlerArg.isSome = true →
      e.isString = true ∧ f.isFunction = true ∧
      (Client.on h e f).handlers = h ∧ (Client.on h e f).assertThrew = false) := by
  cases e with
  | str s =>
    cases f with
    | fn k =>
      constructor
      · intro hguard
        simp [JsVal.isString, JsVal.isFunction] at hguard
      · intro harg
        by_cases h1 : s = "error" <;> by_cases h2 : s = "status" <;>
          by_cases h3 : s = "data" <;>
            simp_all [Client.on, JsVal.isString, JsVal.isFunction]
    | str t => simp [Client.on, JsVal.isString, JsVal.isFunction]
    | num n => simp [Client.on, JsVal.isString, JsVal.isFunction]
    | undef => simp [Client.on, JsVal.isString, JsVal.isFunction]
  | fn k => cases f <;> simp [Client.on, JsVal.isString, JsVal.isFunction]
  | num n => cases f <;> simp [Client.on, JsVal.isString, JsVal.isFunction]
  | undef => cases f <;> simp [Client.on, JsVal.isString, JsVal.isFunction]

/-- Claim C10, witness: the guard theorem at a non-string event (assertion
throws, nothing else happens) and at the unknown event name `bogus`. -/
theorem on_assert_guard_witness :
    Client.on ⟨.fn 0, .fn 1, .fn 2⟩ (.num 3) (.fn 9) =
      ⟨⟨.fn 0, .fn 1, .fn 2⟩, true, none⟩ ∧
    (JsVal.isString (.str "bogus") = true ∧ JsVal.isFunction (.fn 9) = true ∧
      (Client.on ⟨.fn 0, .fn 1, .fn 2⟩ (.str "bogus") (.fn 9)).handlers =
        ⟨.fn 0, .fn 1, .fn 2⟩ ∧
      (Client.on ⟨.fn 0, .fn 1, .fn 2⟩ (.str "bogus") (.fn 9)).assertThrew = false) :=
  ⟨(on_assert_guard ⟨.fn 0, .fn 1, .fn 2⟩ (.num 3) (.fn 9)).1 (by decide),
   (on_assert_guard ⟨.fn 0, .fn 1, .fn 2⟩ (.str "bogus") (.fn 9)).2 (by decide)⟩

end StockClient
